import Mathlib

/-!
Verification of the DDB-System client (src/DDB System/GUI/gui.py).

The file shallowly embeds the command-dispatch and node-health logic of
`DatabaseGUI`: the JSON handling done through Python's `json.loads`, the
operation catalog and field table (`__init__`, `update_fields`,
`update_node_ip`), the command build/execute path (`_execute_operation`),
the health-monitor loop (`check_node_status`, `cleanup`), and the socket
timeout configuration.  Theorems below settle the specification claims
against these definitions.
-/

/-- A parsed JSON value, as produced by Python's `json.loads`.
Numbers keep their surface lexeme: no claim below depends on numeric
values, only on the structural category of the parsed result. -/
inductive Json where
  | null
  | bool (b : Bool)
  | num (lexeme : String)
  | str (s : String)
  | arr (elems : List Json)
  | obj (fields : List (String × Json))
deriving Repr

/-- JSON insignificant whitespace. -/
def isWs (c : Char) : Bool :=
  c = ' ' || c = '\t' || c = '\n' || c = '\r'

/-- Drop leading JSON whitespace. -/
def skipWs : List Char → List Char
  | [] => []
  | c :: cs => if isWs c then skipWs cs else c :: cs

/-- Parse the body of a JSON string literal (the opening quote already
consumed), handling the single-character escapes; returns the decoded
string and the remaining input. -/
def parseStringBody : Nat → List Char → List Char → Option (String × List Char)
  | 0, _, _ => none
  | _, [], _ => none
  | fuel + 1, c :: cs, acc =>
    if c = '"' then
      some (String.mk acc.reverse, cs)
    else if c = '\\' then
      match cs with
      | [] => none
      | e :: cs2 =>
        let dec : Option Char :=
          if e = '"' then some '"'
          else if e = '\\' then some '\\'
          else if e = '/' then some '/'
          else if e = 'n' then some '\n'
          else if e = 't' then some '\t'
          else if e = 'r' then some '\r'
          else none
        match dec with
        | some d => parseStringBody fuel cs2 (d :: acc)
        | none => none
    else
      parseStringBody fuel cs (c :: acc)

/-- Split the longest leading run of decimal digits from the input. -/
def takeDigits : List Char → List Char × List Char
  | [] => ([], [])
  | c :: cs =>
    if c.isDigit then
      let (ds, rest) := takeDigits cs
      (c :: ds, rest)
    else
      ([], c :: cs)

/-- Parse a JSON number token, returning its lexeme and the rest. -/
def parseNumberToken (cs : List Char) : Option (String × List Char) :=
  let (sign, cs1) :=
    match cs with
    | '-' :: rest => (['-'], rest)
    | _ => (([] : List Char), cs)
  let (intPart, cs2) := takeDigits cs1
  if intPart = [] then none
  else
    let (fracPart, cs3) :=
      match cs2 with
      | '.' :: rest =>
        let (ds, r) := takeDigits rest
        (('.' :: ds), r)
      | _ => (([] : List Char), cs2)
    match cs3, fracPart with
    | _, '.' :: [] => none
    | _, _ =>
      let (expPart, cs4) :=
        match cs3 with
        | 'e' :: rest =>
          let (es, r) :=
            match rest with
            | '+' :: r2 => let (ds, r3) := takeDigits r2; ('+' :: ds, r3)
            | '-' :: r2 => let (ds, r3) := takeDigits r2; ('-' :: ds, r3)
            | _ => takeDigits rest
          ('e' :: es, r)
        | 'E' :: rest =>
          let (es, r) :=
            match rest with
            | '+' :: r2 => let (ds, r3) := takeDigits r2; ('+' :: ds, r3)
            | '-' :: r2 => let (ds, r3) := takeDigits r2; ('-' :: ds, r3)
            | _ => takeDigits rest
          ('E' :: es, r)
        | _ => (([] : List Char), cs3)
      some (String.mk (sign ++ intPart ++ fracPart ++ expPart), cs4)

/-- Check that the input starts with the given literal and return the rest. -/
def expectLit : List Char → List Char → Option (List Char)
  | [], cs => some cs
  | _, [] => none
  | l :: ls, c :: cs => if c = l then expectLit ls cs else none

mutual

/-- Recursive-descent parser for a JSON value, with fuel bounding the
nesting depth; mirrors the grammar accepted by Python's `json.loads`. -/
def parseValue : Nat → List Char → Option (Json × List Char)
  | 0, _ => none
  | fuel + 1, cs =>
    match skipWs cs with
    | [] => none
    | c :: rest =>
      if c = 'n' then
        (expectLit ['u', 'l', 'l'] rest).map (fun r => (Json.null, r))
      else if c = 't' then
        (expectLit ['r', 'u', 'e'] rest).map (fun r => (Json.bool true, r))
      else if c = 'f' then
        (expectLit ['a', 'l', 's', 'e'] rest).map (fun r => (Json.bool false, r))
      else if c = '"' then
        (parseStringBody (rest.length + 1) rest []).map (fun p => (Json.str p.1, p.2))
      else if c = '[' then
        parseElems fuel rest
      else if c = '{' then
        parseMembers fuel rest
      else if c = '-' || c.isDigit then
        (parseNumberToken (c :: rest)).map (fun p => (Json.num p.1, p.2))
      else
        none

/-- Parse the elements of a JSON array (the `[` already consumed). -/
def parseElems : Nat → List Char → Option (Json × List Char)
  | 0, _ => none
  | fuel + 1, cs =>
    match skipWs cs with
    | ']' :: rest => some (Json.arr [], rest)
    | other =>
      match parseValue fuel other with
      | none => none
      | some (j, rest) =>
        match parseElemsTail fuel rest with
        | none => none
        | some (js, rest2) => some (Json.arr (j :: js), rest2)

/-- Parse `, value`* `]` after one array element. -/
def parseElemsTail : Nat → List Char → Option (List Json × List Char)
  | 0, _ => none
  | fuel + 1, cs =>
    match skipWs cs with
    | ']' :: rest => some ([], rest)
    | ',' :: rest =>
      match parseValue fuel rest with
      | none => none
      | some (j, rest2) =>
        match parseElemsTail fuel rest2 with
        | none => none
        | some (js, rest3) => some (j :: js, rest3)
    | _ => none

/-- Parse the members of a JSON object (the opening brace consumed). -/
def parseMembers : Nat → List Char → Option (Json × List Char)
  | 0, _ => none
  | fuel + 1, cs =>
    match skipWs cs with
    | '}' :: rest => some (Json.obj [], rest)
    | other =>
      match parseMember fuel other with
      | none => none
      | some (kv, rest) =>
        match parseMembersTail fuel rest with
        | none => none
        | some (kvs, rest2) => some (Json.obj (kv :: kvs), rest2)

/-- Parse one `"key" : value` member. -/
def parseMember : Nat → List Char → Option ((String × Json) × List Char)
  | 0, _ => none
  | fuel + 1, cs =>
    match skipWs cs with
    | '"' :: rest =>
      match parseStringBody (rest.length + 1) rest [] with
      | none => none
      | some (k, rest2) =>
        match skipWs rest2 with
        | ':' :: rest3 =>
          match parseValue fuel rest3 with
          | none => none
          | some (v, rest4) => some ((k, v), rest4)
        | _ => none
    | _ => none

/-- Parse `, member`* and the closing brace after one object member. -/
def parseMembersTail : Nat → List Char → Option (List (String × Json) × List Char)
  | 0, _ => none
  | fuel + 1, cs =>
    match skipWs cs with
    | '}' :: rest => some ([], rest)
    | ',' :: rest =>
      match parseMember fuel rest with
      | none => none
      | some (kv, rest2) =>
        match parseMembersTail fuel rest2 with
        | none => none
        | some (kvs, rest3) => some (kv :: kvs, rest3)
    | _ => none

end

/-- Embedding of Python's `json.loads`: parse one JSON document and
reject trailing garbage; `none` models a raised `JSONDecodeError`. -/
def json_loads (s : String) : Option Json :=
  match parseValue (s.length + 1) s.data with
  | none => none
  | some (j, rest) => if skipWs rest = [] then some j else none

/-- The six base operations offered in `__init__` (gui.py line 100). -/
def baseOperations : List String :=
  ["CREATE_DB", "CREATE_TABLE", "INSERT", "UPDATE", "DELETE", "SEARCH"]

/-- The operation list built in `__init__` (gui.py lines 100-102) as a
function of the role it reads from `self.node_type`: DROP_DB is appended
exactly when that role is "Master". -/
def availableOperations (role : String) : List String :=
  if role = "Master" then baseOperations ++ ["DROP_DB"] else baseOperations

/-- `self.node_configs` (gui.py lines 51-56): the fixed role → address table. -/
def node_configs : List (String × String) :=
  [("Master", "192.168.149.137:8000"),
   ("Slave 1", "192.168.149.137:8001"),
   ("Slave 2", "192.168.149.137:8002")]

/-- Dictionary lookup `self.node_configs[role]`; `none` models a `KeyError`. -/
def lookupNode (role : String) : Option String :=
  (node_configs.find? (fun p => p.1 = role)).map (fun p => p.2)

/-- The GUI state relevant to node selection: the selected role
(`self.node_type`), the target address (`self.node_ip_port`) and the set
of operation radio buttons created so far (`operations` in `__init__`). -/
structure GuiState where
  nodeType : String
  nodeIpPort : String
  offeredOps : List String
deriving Repr, DecidableEq

/-- `DatabaseGUI.__init__` start-up state (gui.py lines 42-43, 100-104):
role defaults to "Master", and the operation radio buttons are built once
from the role at that moment. -/
def initGui : GuiState :=
  { nodeType := "Master",
    nodeIpPort := "192.168.149.137:8000",
    offeredOps := availableOperations "Master" }

/-- Role selection followed by `update_node_ip` (gui.py lines 156-159):
the combobox stores the new role, the address is refreshed from
`node_configs`, and `update_fields()` runs — which repacks the input
entries but never rebuilds the operation radio buttons, so `offeredOps`
is unchanged. `none` models the `KeyError` on an unknown role. -/
def update_node_ip (s : GuiState) (newRole : String) : Option GuiState :=
  match lookupNode newRole with
  | none => none
  | some addr => some { s with nodeType := newRole, nodeIpPort := addr }

/-- The four input fields of the form. -/
inductive FieldKind where
  | database
  | table
  | data
  | condition
deriving Repr, DecidableEq

/-- `DatabaseGUI.update_fields` (gui.py lines 161-251): the ordered list
of input fields packed (shown) for each operation name; any other string
shows no field. -/
def update_fields (op : String) : List FieldKind :=
  if op = "CREATE_DB" then [.database]
  else if op = "DROP_DB" then [.database]
  else if op = "CREATE_TABLE" then [.database, .table, .data]
  else if op = "INSERT" then [.database, .table, .data]
  else if op = "UPDATE" then [.database, .table, .data, .condition]
  else if op = "DELETE" then [.database, .table, .condition]
  else if op = "SEARCH" then [.database, .table, .condition]
  else []

/-- The request dictionary `op` built in `_execute_operation`
(gui.py lines 261-267): keys Type, Database, Table, Data, Condition. -/
structure Command where
  «Type» : String
  Database : String
  Table : String
  Data : Json
  Condition : Json
deriving Repr

/-- The JSON-parsing phase of `_execute_operation` (gui.py lines 268-276):
`data_str = self.data.get() or "\x7b\x7d"` treats empty text as the empty
object, each text is fed to `json.loads`, and a `JSONDecodeError` aborts
the build (`none`). -/
def buildCommand (opType db table dataText condText : String) : Option Command :=
  match json_loads (if dataText = "" then "\x7b\x7d" else dataText) with
  | none => none
  | some d =>
    match json_loads (if condText = "" then "\x7b\x7d" else condText) with
    | none => none
    | some c =>
      some { «Type» := opType, Database := db, Table := table, Data := d, Condition := c }

/-- Environment behaviour of the one-shot socket exchange in
`_execute_operation`: either some call in connect/send/recv raises an
exception with the given message, or the exchange yields a response
string (`s.recv(4096).decode()`). -/
inductive NetBehavior where
  | connError (msg : String)
  | response (s : String)
deriving Repr, DecidableEq

/-- The operation-feedback outcomes of `_execute_operation`, one per
status-label assignment in gui.py lines 273-304. -/
inductive ExecStatus where
  | invalidJson
  | searchCompleted
  | invalidSearchResponse
  | operationFailed
  | operationCompleted (opType : String)
  | execError (msg : String)
deriving Repr, DecidableEq

/-- What `_execute_operation` puts into the result text box. -/
inductive DisplayResult where
  | untouched
  | structured (j : Json)
  | rawText (s : String)
deriving Repr

/-- Observable outcome of one `_execute_operation` run: the status label,
the result box, and the network exchanges initiated (target address and
the command serialized into the request), in order. -/
structure ExecResult where
  status : ExecStatus
  display : DisplayResult
  netAttempts : List (String × Command)
deriving Repr

/-- `DatabaseGUI._execute_operation` (gui.py lines 258-304): build the
request from the raw field texts; on a JSON parse error report
"Invalid JSON" and return before any socket work; otherwise initiate the
connect/send/recv exchange with the selected address and interpret the
outcome — SEARCH responses are parsed (parse failure shows the raw text
and reports "Error: Invalid SEARCH response"), any other response is
shown verbatim and reported failed exactly when it starts with "Error",
and a raised socket exception is reported as "Error: ...". -/
def execute_operation (addr opType db table dataText condText : String)
    (net : NetBehavior) : ExecResult :=
  match buildCommand opType db table dataText condText with
  | none =>
    { status := .invalidJson, display := .untouched, netAttempts := [] }
  | some cmd =>
    match net with
    | .connError msg =>
      { status := .execError msg,
        display := .rawText ("Error: " ++ msg),
        netAttempts := [(addr, cmd)] }
    | .response data =>
      if cmd.«Type» = "SEARCH" then
        match json_loads data with
        | some results =>
          { status := .searchCompleted,
            display := .structured results,
            netAttempts := [(addr, cmd)] }
        | none =>
          { status := .invalidSearchResponse,
            display := .rawText data,
            netAttempts := [(addr, cmd)] }
      else
        { status := if data.startsWith "Error" then .operationFailed
                    else .operationCompleted cmd.«Type»,
          display := .rawText data,
          netAttempts := [(addr, cmd)] }

/-- The probe timeout `s.settimeout(2)` in `check_node_status`
(gui.py line 147). -/
def probe_timeout : Nat := 2

/-- One full sweep of the `for node, addr in self.node_configs.items()`
body of `check_node_status` (gui.py lines 143-153), with the environment
abstracted as `accepts : address → Bool` (whether the bare `connect`
succeeds; `false` covers refusal, reset and timeout alike).  `statuses`
records the label written per node (`true` = "Connected", i.e.
Reachable); `probes` records each probe attempted: its target address
and the timeout it used, in the sweep's order. -/
structure SweepResult where
  statuses : List (String × Bool)
  probes : List (String × Nat)
deriving Repr, DecidableEq

/-- The sweep proper: probe every registered endpoint once, in registry
order, each under `probe_timeout`; a successful connect marks the node
Reachable, any error marks it Unreachable. -/
def check_node_status_sweep (accepts : String → Bool) : SweepResult :=
  { statuses := node_configs.map (fun p => (p.1, accepts p.2)),
    probes := node_configs.map (fun p => (p.2, probe_timeout)) }

/-- Program points of the `check_node_status` loop (gui.py lines
140-154): the `while self.running` test, the probe of node `i` inside
the for-loop over the three registered nodes, the `time.sleep(5)` at the
end of a sweep, and loop exit. -/
inductive MonPC where
  | checkLoop
  | probing (i : Fin 3)
  | sleeping
  | halted
deriving Repr, DecidableEq

/-- Monitor-thread state: the shared `self.running` flag and the loop's
program point. -/
structure MonState where
  running : Bool
  pc : MonPC
deriving Repr, DecidableEq

/-- One small step of the `check_node_status` loop; the second component
is the node probed by the step, if any.  The `running` flag is consulted
only at the `while` test — once a sweep has started, all its remaining
probes and the sleep run regardless of the flag. -/
def monStep (s : MonState) : MonState × Option (Fin 3) :=
  match s.pc with
  | .checkLoop =>
    if s.running then ({ s with pc := .probing 0 }, none)
    else ({ s with pc := .halted }, none)
  | .probing i =>
    if h : i.val + 1 < 3 then ({ s with pc := .probing ⟨i.val + 1, h⟩ }, some i)
    else ({ s with pc := .sleeping }, some i)
  | .sleeping => ({ s with pc := .checkLoop }, none)
  | .halted => (s, none)

/-- `DatabaseGUI.cleanup` (gui.py lines 306-308): set `self.running`
to False and return at once; the monitor thread is not joined. -/
def cleanup (s : MonState) : MonState :=
  { s with running := false }

/-- Run the monitor for `n` steps, collecting the probes performed. -/
def runMonitor : Nat → MonState → MonState × List (Fin 3)
  | 0, s => (s, [])
  | n + 1, s =>
    let (s1, e) := monStep s
    let (s2, es) := runMonitor n s1
    (s2, e.toList ++ es)

/-- The probes of the in-flight sweep still to run from a given program
point (the remainder of the current for-loop). -/
def remainingSweep : MonPC → List (Fin 3)
  | .probing i => (List.finRange 3).drop i.val
  | _ => []

/-- The command timeout `s.settimeout(10)` in `_execute_operation`
(gui.py line 281). -/
def command_timeout : Nat := 10

/-- Python `socket.settimeout` semantics for one blocking call: the call
raises `socket.timeout` exactly when it blocks longer than the timeout. -/
def opTimesOut (duration timeout : Nat) : Bool :=
  timeout < duration

/-- Whether the socket exchange of `_execute_operation` (connect, then
sendall, then recv, each a separate blocking call on a socket configured
with `settimeout(10)`) raises a timeout, given the time each call would
need: the timeout applies to each call individually. -/
def socketExchangeTimesOut (connectT sendT recvT : Nat) : Bool :=
  opTimesOut connectT command_timeout || opTimesOut sendT command_timeout ||
    opTimesOut recvT command_timeout

/-- Modelled from the spec: "a single timeout (default 10 seconds)
covering connect+send+receive as one budget" — the exchange times out
exactly when the three calls together exceed the budget. -/
def combinedBudgetTimesOut (connectT sendT recvT : Nat) : Bool :=
  command_timeout < connectT + sendT + recvT

/-- Discriminator: is a JSON value an object (mapping)? -/
def Json.isObj : Json → Bool
  | .obj _ => true
  | _ => false

/-- Helper: a successfully built command carries the requested operation
name in its Type field. -/
theorem buildCommand_type (opType db table dataText condText : String) (cmd : Command)
    (h : buildCommand opType db table dataText condText = some cmd) :
    cmd.«Type» = opType := by
  unfold buildCommand at h
  split at h
  · exact Option.noConfusion h
  · split at h
    · exact Option.noConfusion h
    · rcases Option.some.inj h with rfl
      rfl

/-- Claim C1: the operation radio buttons are created once in `__init__`
from the start-up role "Master" and are never rebuilt; selecting
"Slave 1" afterwards (running `update_node_ip`) changes the role and the
target address but leaves DROP_DB among the offered operations, contrary
to the claim that DROP_DB is offered only while the role is "Master". -/
theorem drop_db_still_offered_after_switch_to_slave :
    (update_node_ip initGui "Slave 1").map
      (fun s => (s.nodeType, s.offeredOps.contains "DROP_DB")) =
      some ("Slave 1", true) := by rfl

/-- Claim C2 (as stated) is false: the builder feeds the raw data text
to `json.loads` and keeps whatever value comes back, so the raw text
"null" is accepted and yields a Data field that is JSON null — not a
mapping — and the command is built and goes on to the network phase. -/
theorem buildCommand_accepts_null_data :
    (buildCommand "INSERT" "mydb" "users" "null" "").map
      (fun cmd => (cmd.Data, cmd.Data.isObj)) = some (Json.null, false) := by rfl

/-- Claim C2 (amended): for every built Command, Data and Condition are
the parsed JSON values of the raw texts — the structured empty mapping
when the text is empty, and never the unparsed raw text — but they are
whatever JSON value the text denotes, not necessarily a mapping. -/
theorem buildCommand_parsed_values (opType db table dataText condText : String)
    (cmd : Command) (h : buildCommand opType db table dataText condText = some cmd) :
    (dataText = "" → cmd.Data = Json.obj []) ∧
    (condText = "" → cmd.Condition = Json.obj []) ∧
    json_loads (if dataText = "" then "\x7b\x7d" else dataText) = some cmd.Data ∧
    json_loads (if condText = "" then "\x7b\x7d" else condText) = some cmd.Condition := by
  unfold buildCommand at h
  split at h
  · exact Option.noConfusion h
  · rename_i d hd
    split at h
    · exact Option.noConfusion h
    · rename_i c hc
      rcases Option.some.inj h with rfl
      refine ⟨?_, ?_, hd, hc⟩
      · intro he
        rw [if_pos he] at hd
        exact (Option.some.inj hd).symm
      · intro he
        rw [if_pos he] at hc
        exact (Option.some.inj hc).symm

/-- Witness for `buildCommand_parsed_values` at concrete inputs. -/
theorem buildCommand_parsed_values_witness :
    ("" = "" → (Command.mk "INSERT" "mydb" "users" (Json.obj []) Json.null).Data = Json.obj []) ∧
    ("null" = "" → (Command.mk "INSERT" "mydb" "users" (Json.obj []) Json.null).Condition = Json.obj []) ∧
    json_loads (if "" = "" then "\x7b\x7d" else "") =
      some (Command.mk "INSERT" "mydb" "users" (Json.obj []) Json.null).Data ∧
    json_loads (if "null" = "" then "\x7b\x7d" else "null") =
      some (Command.mk "INSERT" "mydb" "users" (Json.obj []) Json.null).Condition :=
  buildCommand_parsed_values "INSERT" "mydb" "users" "" "null"
    (Command.mk "INSERT" "mydb" "users" (Json.obj []) Json.null) rfl

/-- Claim C3: when a non-empty raw data or condition text fails to parse
as JSON, `_execute_operation` reports the invalid-input failure and
returns before any socket work: no network exchange is initiated. -/
theorem invalid_json_aborts_before_network
    (addr opType db table dataText condText : String) (net : NetBehavior)
    (h : (dataText ≠ "" ∧ json_loads dataText = none) ∨
         (condText ≠ "" ∧ json_loads condText = none)) :
    (execute_operation addr opType db table dataText condText net).status = .invalidJson ∧
    (execute_operation addr opType db table dataText condText net).netAttempts = [] := by
  have hb : buildCommand opType db table dataText condText = none := by
    unfold buildCommand
    rcases h with ⟨hne, hn⟩ | ⟨hne, hn⟩
    · rw [if_neg hne, hn]
    · split
      · rfl
      · rw [if_neg hne, hn]
  unfold execute_operation
  rw [hb]
  exact ⟨rfl, rfl⟩

/-- Witness for `invalid_json_aborts_before_network`: raw data text
"not json" aborts the build and no network attempt is made. -/
theorem invalid_json_aborts_before_network_witness :
    (execute_operation "192.168.149.137:8000" "INSERT" "mydb" "users" "not json" ""
      (.response "ok")).status = .invalidJson ∧
    (execute_operation "192.168.149.137:8000" "INSERT" "mydb" "users" "not json" ""
      (.response "ok")).netAttempts = [] :=
  invalid_json_aborts_before_network "192.168.149.137:8000" "INSERT" "mydb" "users"
    "not json" "" (.response "ok") (Or.inl ⟨by decide, rfl⟩)

/-- Claim C4 (as stated) is false: `cleanup` only flips the shared
`running` flag, which the loop consults once per sweep; delivering the
stop signal while the monitor stands between the probes of a sweep (here
just before probing node 1) still lets probes of nodes 1 and 2 run
before the loop halts — further probes occur after the stop returns. -/
theorem probes_continue_after_cleanup :
    runMonitor 6 (cleanup { running := true, pc := .probing 1 }) =
      ({ running := false, pc := .halted }, [(1 : Fin 3), 2]) := by decide

/-- Claim C4 (amended): once the stop flag is cleared, the monitor loop
halts at the next `while` test: the probes still performed are exactly
the remainder of the in-flight sweep, no new sweep begins, and from the
halted point no probe ever occurs again. -/
theorem monitor_stops_at_sweep_boundary :
    (∀ pc, (runMonitor 6 { running := false, pc := pc }).1.pc = .halted ∧
           (runMonitor 6 { running := false, pc := pc }).2 = remainingSweep pc) ∧
    (∀ n, (runMonitor n { running := false, pc := .halted }).2 = []) := by
  constructor
  · intro pc
    cases pc with
    | checkLoop => exact ⟨rfl, rfl⟩
    | probing i =>
      obtain ⟨v, hv⟩ := i
      interval_cases v <;> exact ⟨rfl, rfl⟩
    | sleeping => exact ⟨rfl, rfl⟩
    | halted => exact ⟨rfl, rfl⟩
  · intro n
    induction n with
    | zero => rfl
    | succ n ih => simpa [runMonitor, monStep] using ih

/-- Claim C5: for a SEARCH command, a response that parses as JSON is
returned as the structured payload and the operation is reported
completed; a response that fails to parse is shown as the raw text and
the operation is reported failed ("Error: Invalid SEARCH response"). -/
theorem search_response_handling
    (addr db table dataText condText resp : String) (cmd : Command)
    (hb : buildCommand "SEARCH" db table dataText condText = some cmd) :
    (∀ j, json_loads resp = some j →
      (execute_operation addr "SEARCH" db table dataText condText (.response resp)).status =
        .searchCompleted ∧
      (execute_operation addr "SEARCH" db table dataText condText (.response resp)).display =
        .structured j) ∧
    (json_loads resp = none →
      (execute_operation addr "SEARCH" db table dataText condText (.response resp)).status =
        .invalidSearchResponse ∧
      (execute_operation addr "SEARCH" db table dataText condText (.response resp)).display =
        .rawText resp) := by
  have ht : cmd.«Type» = "SEARCH" := buildCommand_type _ _ _ _ _ _ hb
  constructor
  · intro j hj
    simp [execute_operation, hb, ht, hj]
  · intro hj
    simp [execute_operation, hb, ht, hj]

/-- Witness for `search_response_handling` at concrete inputs. -/
theorem search_response_handling_witness :
    (execute_operation "192.168.149.137:8000" "SEARCH" "mydb" "users" "" ""
      (.response "[1, 2]")).status = .searchCompleted ∧
    (execute_operation "192.168.149.137:8000" "SEARCH" "mydb" "users" "" ""
      (.response "[1, 2]")).display =
      .structured (Json.arr [Json.num "1", Json.num "2"]) :=
  (search_response_handling "192.168.149.137:8000" "mydb" "users" "" "" "[1, 2]"
    (Command.mk "SEARCH" "mydb" "users" (Json.obj []) (Json.obj [])) rfl).1
    (Json.arr [Json.num "1", Json.num "2"]) rfl

/-- Claim C6: for every non-SEARCH operation, the response text is shown
verbatim, and the operation is reported failed exactly when the response
starts with the literal prefix "Error". -/
theorem non_search_response_handling
    (addr opType db table dataText condText resp : String) (cmd : Command)
    (hop : opType ≠ "SEARCH")
    (hb : buildCommand opType db table dataText condText = some cmd) :
    (execute_operation addr opType db table dataText condText (.response resp)).display =
      .rawText resp ∧
    ((execute_operation addr opType db table dataText condText (.response resp)).status =
      .operationFailed ↔ resp.startsWith "Error" = true) := by
  have ht : cmd.«Type» = opType := buildCommand_type _ _ _ _ _ _ hb
  cases hsw : resp.startsWith "Error" <;>
    simp [execute_operation, hb, ht, hop, hsw]

/-- Witness for `non_search_response_handling`: the response
"Error: table not found" to a DELETE is shown verbatim and reported as
an operation failure. -/
theorem non_search_response_handling_witness :
    (execute_operation "192.168.149.137:8000" "DELETE" "mydb" "users" "" ""
      (.response "Error: table not found")).display = .rawText "Error: table not found" ∧
    ((execute_operation "192.168.149.137:8000" "DELETE" "mydb" "users" "" ""
      (.response "Error: table not found")).status = .operationFailed ↔
      "Error: table not found".startsWith "Error" = true) :=
  non_search_response_handling "192.168.149.137:8000" "DELETE" "mydb" "users" "" ""
    "Error: table not found"
    (Command.mk "DELETE" "mydb" "users" (Json.obj []) (Json.obj []))
    (by decide) rfl

/-- Claim C7: a sweep probes each registered endpoint once, in registry
order, each with the 2-second timeout; a successful connect marks the
node Reachable and any error marks it Unreachable; and whenever exactly
one of the three endpoints accepts, the sweep reports exactly one
Reachable and two Unreachable nodes. -/
theorem sweep_probes_each_endpoint
    (accepts : String → Bool)
    (h : (node_configs.map (fun p => accepts p.2)).count true = 1) :
    (check_node_status_sweep accepts).probes =
      [("192.168.149.137:8000", 2), ("192.168.149.137:8001", 2), ("192.168.149.137:8002", 2)] ∧
    (check_node_status_sweep accepts).statuses =
      [("Master", accepts "192.168.149.137:8000"),
       ("Slave 1", accepts "192.168.149.137:8001"),
       ("Slave 2", accepts "192.168.149.137:8002")] ∧
    ((check_node_status_sweep accepts).statuses.countP (fun q => q.2)) = 1 ∧
    ((check_node_status_sweep accepts).statuses.countP (fun q => !q.2)) = 2 := by
  refine ⟨rfl, rfl, ?_⟩
  simp only [check_node_status_sweep, node_configs, List.map_cons, List.map_nil] at h ⊢
  cases h0 : accepts "192.168.149.137:8000" <;>
  cases h1 : accepts "192.168.149.137:8001" <;>
  cases h2 : accepts "192.168.149.137:8002" <;>
  simp only [h0, h1, h2] at h ⊢ <;>
  revert h <;> decide

/-- Witness for `sweep_probes_each_endpoint`: only the Master endpoint
accepts; the sweep reports one Reachable and two Unreachable nodes. -/
theorem sweep_probes_each_endpoint_witness :
    (check_node_status_sweep (fun a => a == "192.168.149.137:8000")).probes =
      [("192.168.149.137:8000", 2), ("192.168.149.137:8001", 2), ("192.168.149.137:8002", 2)] ∧
    (check_node_status_sweep (fun a => a == "192.168.149.137:8000")).statuses =
      [("Master", "192.168.149.137:8000" == "192.168.149.137:8000"),
       ("Slave 1", "192.168.149.137:8001" == "192.168.149.137:8000"),
       ("Slave 2", "192.168.149.137:8002" == "192.168.149.137:8000")] ∧
    ((check_node_status_sweep (fun a => a == "192.168.149.137:8000")).statuses.countP
      (fun q => q.2)) = 1 ∧
    ((check_node_status_sweep (fun a => a == "192.168.149.137:8000")).statuses.countP
      (fun q => !q.2)) = 2 :=
  sweep_probes_each_endpoint (fun a => a == "192.168.149.137:8000") (by decide)

/-- Claim C8 (as stated) is false: `settimeout(10)` bounds each blocking
socket call separately, so an exchange whose connect, send and receive
each need 9 seconds raises no timeout although its combined duration,
27 seconds, exceeds the claimed single 10-second budget. -/
theorem timeout_not_a_combined_budget :
    socketExchangeTimesOut 9 9 9 = false ∧ combinedBudgetTimesOut 9 9 9 = true := by
  decide

/-- Claim C8 (amended): the 10-second timeout applies to each of
connect, send and receive individually — the exchange raises a timeout
exactly when one of the three calls exceeds 10 seconds on its own — and
a raised timeout is surfaced through the exception path as a failed
command reporting the error text. -/
theorem timeout_is_per_operation :
    (∀ connectT sendT recvT : Nat,
      socketExchangeTimesOut connectT sendT recvT = true ↔
        (command_timeout < connectT ∨ command_timeout < sendT ∨ command_timeout < recvT)) ∧
    (execute_operation "192.168.149.137:8000" "INSERT" "mydb" "users" "" ""
      (.connError "timed out")).status = .execError "timed out" := by
  constructor
  · intro connectT sendT recvT
    simp [socketExchangeTimesOut, opTimesOut, or_assoc]
  · rfl

/-- Claim C9: `update_fields` shows exactly the field set of the spec's
table for each of the seven operation kinds. -/
theorem update_fields_matches_table :
    update_fields "CREATE_DB" = [.database] ∧
    update_fields "DROP_DB" = [.database] ∧
    update_fields "CREATE_TABLE" = [.database, .table, .data] ∧
    update_fields "INSERT" = [.database, .table, .data] ∧
    update_fields "UPDATE" = [.database, .table, .data, .condition] ∧
    update_fields "DELETE" = [.database, .table, .condition] ∧
    update_fields "SEARCH" = [.database, .table, .condition] := by
  refine ⟨rfl, ?_, ?_, ?_, ?_, ?_, ?_⟩ <;> decide

/-- Claim C10: `_execute_operation` performs no role or permission check
of its own: for every operation kind (DROP_DB included) and every target
address, once the Data and Condition texts parse, the request is
serialized and the network exchange with that address is initiated. -/
theorem request_sent_without_role_check
    (addr opType db table dataText condText : String) (net : NetBehavior) (cmd : Command)
    (hb : buildCommand opType db table dataText condText = some cmd) :
    (execute_operation addr opType db table dataText condText net).netAttempts =
      [(addr, cmd)] := by
  cases net with
  | connError msg => simp [execute_operation, hb]
  | response data =>
    by_cases ht : cmd.«Type» = "SEARCH"
    · cases hj : json_loads data <;> simp [execute_operation, hb, ht, hj]
    · simp [execute_operation, hb, ht]

/-- Witness for `request_sent_without_role_check`: a DROP_DB aimed at
the Slave 1 address is sent without any role check. -/
theorem request_sent_without_role_check_witness :
    (execute_operation "192.168.149.137:8001" "DROP_DB" "mydb" "" "" ""
      (.response "Database dropped")).netAttempts =
      [("192.168.149.137:8001",
        Command.mk "DROP_DB" "mydb" "" (Json.obj []) (Json.obj []))] :=
  request_sent_without_role_check "192.168.149.137:8001" "DROP_DB" "mydb" "" "" ""
    (.response "Database dropped")
    (Command.mk "DROP_DB" "mydb" "" (Json.obj []) (Json.obj [])) rfl
